import Mathlib

/-!
Verification of the cursor-theming module (`src/seat/pointer/theme.rs`):
a scale-aware cursor-theme cache (`ScaledThemeList`), per-pointer state
(`PointerInner`) with its `update_cursor` algorithm, and the user-facing
`ThemedPointer.set_cursor` operation.

The external collaborators (the `wayland-cursor` theme loader and the
wayland protocol objects) are modelled as a deterministic environment
`ThemeEnv` and a trace of protocol `Request`s emitted by each operation.
Machine integers are modelled as `Nat`/`Int` with explicit two's-complement
conversions `toU32`/`toI32` where the source casts (`as u32`, `as i32`).
-/

set_option maxRecDepth 4000

/-- `as u32` on an `i32` value: two's-complement reinterpretation. -/
def toU32 (x : Int) : Nat := (x % 4294967296).toNat

/-- `as i32` on a `u32` value: two's-complement reinterpretation. -/
def toI32 (n : Nat) : Int :=
  let m := n % 4294967296
  if m < 2147483648 then (m : Int) else (m : Int) - 4294967296

/-- A cursor from the loaded theme (`wayland_cursor::Cursor`): frame
buffers (identified by an opaque `Nat` id) and frame info
`(width, height, hotspot_x, hotspot_y, delay)`, all `u32`. -/
structure Cursor where
  frame_buffer : Nat → Option Nat
  frame_info : Nat → Option (Nat × Nat × Nat × Nat × Nat)

/-- A loaded cursor theme (`wayland_cursor::CursorTheme`): resolves a
cursor name to a `Cursor`. -/
structure CursorTheme where
  get_cursor : String → Option Cursor

/-- The deterministic external theme loader
(`wayland_cursor::load_theme(name, size, shm)`); `shm` is an opaque id. -/
structure ThemeEnv where
  load_theme : Option String → Nat → Nat → CursorTheme

/-- `ScaledThemeList`: the per-scale theme cache. `themes` associates a
scale factor (`u32`) with the theme loaded for it. -/
structure ScaledThemeList where
  shm : Nat
  name : Option String
  themes : List (Nat × CursorTheme)

/-- `ScaledThemeList::new`: empty cache. -/
def ScaledThemeList.new (name : Option String) (shm : Nat) : ScaledThemeList :=
  { shm := shm, name := name, themes := [] }

/-- `ScaledThemeList::get_cursor`: find the first cached theme whose scale
matches (the source computes `position` and indexes); if none is cached,
load a theme sized `16 * scale` (u32 arithmetic) and append it; then ask
that theme for the cursor name. Returns the lookup result together with
the (possibly grown) cache. -/
def ScaledThemeList.get_cursor (env : ThemeEnv) (self : ScaledThemeList)
    (name : String) (scale : Nat) : Option Cursor × ScaledThemeList :=
  match self.themes.find? (fun p => p.1 == scale) with
  | some p => (p.2.get_cursor name, self)
  | none =>
    let new_theme := env.load_theme self.name ((16 * scale) % 4294967296) self.shm
    (new_theme.get_cursor name,
     { self with themes := self.themes ++ [(scale, new_theme)] })

/-- A protocol request observable on the wire, issued on the themed
surface or on the wrapped pointer object. `release_pointer` is the
request that would destroy/release the wrapped pointer; the module never
issues it. -/
inductive Request where
  | set_buffer_scale (scale : Int)
  | attach (buffer : Nat) (x y : Int)
  | damage_buffer (x y w h : Int)
  | damage (x y w h : Int)
  | commit
  | set_cursor (serial : Nat) (with_surface : Bool) (hx hy : Int)
  | destroy
  | release_pointer
  deriving DecidableEq, Repr

/-- `PointerInner`: per-pointer state. The surface handle is represented
by its negotiated protocol version (the only property `update_cursor`
reads from it); `themes` is the shared theme cache (single-threaded
`Rc<RefCell<_>>`, so modelled by value). -/
structure PointerInner where
  surface_version : Nat
  themes : ScaledThemeList
  current_cursor : String
  last_serial : Nat
  scale_factor : Int

/-- `PointerInner::update_cursor`: resolve the current cursor at the
current scale (cast `as u32`), fail if the name or the frame-0 buffer is
unavailable, default missing geometry to zeros, then emit the protocol
sequence: `set_buffer_scale`, `attach`, a version-dependent damage,
`commit`, and `set_cursor` on the pointer. Returns the result, the state
(only the shared cache can have changed: the receiver is `&self`), and
the emitted request trace. -/
def PointerInner.update_cursor (env : ThemeEnv) (self : PointerInner) :
    Except Unit Unit × PointerInner × List Request :=
  let res := self.themes.get_cursor env self.current_cursor (toU32 self.scale_factor)
  let next := { self with themes := res.2 }
  match res.1 with
  | none => (.error (), next, [])
  | some cursor =>
    match cursor.frame_buffer 0 with
    | none => (.error (), next, [])
    | some buffer =>
      let info :=
        match cursor.frame_info 0 with
        | some (w, h, hx, hy, _) => (toI32 w, toI32 h, toI32 hx, toI32 hy)
        | none => ((0 : Int), (0 : Int), (0 : Int), (0 : Int))
      match info with
      | (w, h, hx, hy) =>
        (.ok (), next,
         [Request.set_buffer_scale self.scale_factor,
          Request.attach buffer 0 0,
          if 4 ≤ self.surface_version then Request.damage_buffer 0 0 w h
          else Request.damage 0 0 w h,
          Request.commit,
          Request.set_cursor self.last_serial true hx hy])

/-- `ThemedPointer::set_cursor`: store the serial when one is supplied,
store the requested cursor name, then run `update_cursor`. -/
def ThemedPointer.set_cursor (env : ThemeEnv) (self : PointerInner)
    (name : String) (serial : Option Nat) :
    Except Unit Unit × PointerInner × List Request :=
  let inner :=
    match serial with
    | some s => { self with last_serial := s }
    | none => self
  let inner2 := { inner with current_cursor := name }
  inner2.update_cursor env

/-- `ThemeManager::theme_pointer`: creates a fresh surface (represented
by its negotiated version) and the initial pointer state; no theming
protocol request is issued by construction. -/
def ThemeManager.theme_pointer (themes : ScaledThemeList) (surface_version : Nat) :
    PointerInner × List Request :=
  ({ surface_version := surface_version, themes := themes, last_serial := 0,
     current_cursor := "left_ptr", scale_factor := 1 }, [])

/-- The scale-change listener registered by `theme_pointer`: stores the
notified scale factor unconditionally, then runs a best-effort
`update_cursor`, discarding its error. -/
def scale_callback (env : ThemeEnv) (self : PointerInner) (scale_factor : Int) :
    PointerInner × List Request :=
  let self2 := { self with scale_factor := scale_factor }
  let res := self2.update_cursor env
  (res.2.1, res.2.2)

/-- `Drop for PointerInner`: destroys the owned surface, and only that. -/
def PointerInner.dropRequests (_self : PointerInner) : List Request :=
  [Request.destroy]

/-- A lifecycle event on the `Rc<RefCell<PointerInner>>`: creating a new
handle (`Clone for ThemedPointer`) or dropping one. -/
inductive RcEvent where
  | clone
  | drop
  deriving DecidableEq, Repr

/-- A lifecycle event sequence is valid from handle count `n` when each
clone or drop acts on at least one live handle. -/
def validEvents : Nat → List RcEvent → Bool
  | _, [] => true
  | n, RcEvent.clone :: rest => (n != 0) && validEvents (n + 1) rest
  | n, RcEvent.drop :: rest => (n != 0) && validEvents (n - 1) rest

/-- Handle count after a lifecycle event sequence. -/
def finalCount : Nat → List RcEvent → Nat
  | n, [] => n
  | n, RcEvent.clone :: rest => finalCount (n + 1) rest
  | n, RcEvent.drop :: rest => finalCount (n - 1) rest

/-- Protocol requests issued over a lifecycle event sequence: `Rc`
semantics runs `Drop for PointerInner` exactly when the last handle is
dropped. -/
def rcRequests (inner : PointerInner) : Nat → List RcEvent → List Request
  | _, [] => []
  | n, RcEvent.clone :: rest => rcRequests inner (n + 1) rest
  | n, RcEvent.drop :: rest =>
      (if n = 1 then inner.dropRequests else []) ++ rcRequests inner (n - 1) rest

/-- A sequence of `get_cursor` calls against one cache. -/
def runCalls (env : ThemeEnv) : List (String × Nat) → ScaledThemeList → ScaledThemeList
  | [], stl => stl
  | (n, s) :: rest, stl => runCalls env rest (stl.get_cursor env n s).2

/-- The scales for which a theme load occurred during a call sequence: a
load is observable as growth of the cache. -/
def loadsOf (env : ThemeEnv) : List (String × Nat) → ScaledThemeList → List Nat
  | [], _ => []
  | (n, s) :: rest, stl =>
      (if (stl.get_cursor env n s).2.themes.length = stl.themes.length then []
       else [s]) ++ loadsOf env rest (stl.get_cursor env n s).2

/-! ### Concrete instances used for witnesses and counterexamples -/

/-- A cursor whose frame 0 has buffer id 7 and geometry 24×24 with
hotspot (3, 4). -/
def cursorA : Cursor :=
  { frame_buffer := fun i => if i = 0 then some 7 else none,
    frame_info := fun i => if i = 0 then some (24, 24, 3, 4, 100) else none }

/-- A cursor with a frame-0 buffer but no frame-0 geometry. -/
def cursorNoInfo : Cursor :=
  { frame_buffer := fun i => if i = 0 then some 7 else none,
    frame_info := fun _ => none }

/-- A cursor with no frame-0 buffer. -/
def cursorNoBuf : Cursor :=
  { frame_buffer := fun _ => none,
    frame_info := fun _ => none }

/-- A theme that only knows the name `"left_ptr"`. -/
def themeA : CursorTheme :=
  { get_cursor := fun n => if n = "left_ptr" then some cursorA else none }

/-- A loader that yields `themeA` for every request. -/
def envA : ThemeEnv := { load_theme := fun _ _ _ => themeA }

/-- A loader whose themes resolve every name to `cursorNoInfo`. -/
def envNoInfo : ThemeEnv :=
  { load_theme := fun _ _ _ => { get_cursor := fun _ => some cursorNoInfo } }

/-- A loader whose themes resolve every name to `cursorNoBuf`. -/
def envNoBuf : ThemeEnv :=
  { load_theme := fun _ _ _ => { get_cursor := fun _ => some cursorNoBuf } }

/-- A fresh pointer state over an empty cache, surface version 4. -/
def pstA : PointerInner :=
  { surface_version := 4, themes := ScaledThemeList.new none 0,
    current_cursor := "left_ptr", last_serial := 0, scale_factor := 1 }

/-! ### Helper lemmas on the theme cache -/

/-- One `get_cursor` call either leaves the cache untouched (the scale was
already cached) or appends exactly one entry for the previously-absent
scale, holding the theme loaded at size `16 * scale` (u32). -/
theorem get_cursor_spec (env : ThemeEnv) (stl : ScaledThemeList) (name : String) (scale : Nat) :
    (scale ∈ stl.themes.map Prod.fst ∧ (stl.get_cursor env name scale).2 = stl) ∨
    (scale ∉ stl.themes.map Prod.fst ∧
      (stl.get_cursor env name scale).2 =
        { stl with themes := stl.themes ++
            [(scale, env.load_theme stl.name ((16 * scale) % 4294967296) stl.shm)] }) := by
  unfold ScaledThemeList.get_cursor
  cases h : stl.themes.find? (fun p => p.1 == scale) with
  | some p =>
      left
      refine ⟨?_, rfl⟩
      have hp := List.find?_some h
      have hm := List.mem_of_find?_eq_some h
      have hps : p.1 = scale := by simpa using hp
      exact hps ▸ List.mem_map_of_mem Prod.fst hm
  | none =>
      right
      refine ⟨?_, rfl⟩
      intro hmem
      rw [List.mem_map] at hmem
      obtain ⟨q, hq, hq1⟩ := hmem
      have hqn := List.find?_eq_none.mp h q hq
      simp [hq1] at hqn

/-- Repeating the same `get_cursor` call on the resulting cache yields the
same cursor and the same cache (the loader is deterministic). -/
theorem get_cursor_idem (env : ThemeEnv) (stl : ScaledThemeList) (name : String) (scale : Nat) :
    ((stl.get_cursor env name scale).2).get_cursor env name scale =
      stl.get_cursor env name scale := by
  cases h : stl.themes.find? (fun p => p.1 == scale) with
  | some p =>
      simp only [ScaledThemeList.get_cursor, h]
  | none =>
      have hsingle :
          List.find? (fun p => p.1 == scale)
            [(scale, env.load_theme stl.name ((16 * scale) % 4294967296) stl.shm)] =
            some (scale, env.load_theme stl.name ((16 * scale) % 4294967296) stl.shm) := by
        simp [List.find?]
      simp only [ScaledThemeList.get_cursor, h, List.find?_append, hsingle, Option.or]

/-- The cache before a call is a prefix of the cache after it. -/
theorem get_cursor_extends (env : ThemeEnv) (stl : ScaledThemeList) (name : String) (scale : Nat) :
    stl.themes <+: (stl.get_cursor env name scale).2.themes := by
  rcases get_cursor_spec env stl name scale with ⟨_, h⟩ | ⟨_, h⟩
  · rw [h]
  · rw [h]
    exact List.prefix_append _ _

/-- `get_cursor` changes neither the configured theme name nor the shm
handle of the cache. -/
theorem get_cursor_fields (env : ThemeEnv) (stl : ScaledThemeList) (name : String) (scale : Nat) :
    (stl.get_cursor env name scale).2.name = stl.name ∧
    (stl.get_cursor env name scale).2.shm = stl.shm := by
  rcases get_cursor_spec env stl name scale with ⟨_, h⟩ | ⟨_, h⟩ <;> rw [h] <;> exact ⟨rfl, rfl⟩

/-- The cache grows (by exactly the new entry) precisely when the scale
was absent; it is unchanged precisely when the scale was present. -/
theorem get_cursor_length (env : ThemeEnv) (stl : ScaledThemeList) (name : String) (scale : Nat) :
    ((stl.get_cursor env name scale).2.themes.length = stl.themes.length ↔
      scale ∈ stl.themes.map Prod.fst) := by
  rcases get_cursor_spec env stl name scale with ⟨hmem, h⟩ | ⟨hmem, h⟩
  · rw [h]; simpa using hmem
  · rw [h]
    simp only [List.length_append, List.length_singleton]
    constructor
    · omega
    · intro hc; exact absurd hc hmem

/-! ### Case lemmas for `update_cursor` -/

/-- Shorthand for the cache lookup `update_cursor` performs. -/
def PointerInner.lookup (env : ThemeEnv) (self : PointerInner) :
    Option Cursor × ScaledThemeList :=
  self.themes.get_cursor env self.current_cursor (toU32 self.scale_factor)

theorem update_cursor_none (env : ThemeEnv) (st : PointerInner)
    (h : (st.lookup env).1 = none) :
    st.update_cursor env = (.error (), { st with themes := (st.lookup env).2 }, []) := by
  simp only [PointerInner.lookup] at h
  simp only [PointerInner.update_cursor, PointerInner.lookup, h]

theorem update_cursor_no_buffer (env : ThemeEnv) (st : PointerInner) (c : Cursor)
    (h : (st.lookup env).1 = some c) (hb : c.frame_buffer 0 = none) :
    st.update_cursor env = (.error (), { st with themes := (st.lookup env).2 }, []) := by
  simp only [PointerInner.lookup] at h
  simp only [PointerInner.update_cursor, PointerInner.lookup, h, hb]

theorem update_cursor_ok (env : ThemeEnv) (st : PointerInner) (c : Cursor) (b : Nat)
    (w h hx hy d : Nat)
    (hc : (st.lookup env).1 = some c) (hb : c.frame_buffer 0 = some b)
    (hi : c.frame_info 0 = some (w, h, hx, hy, d)) :
    st.update_cursor env =
      (.ok (), { st with themes := (st.lookup env).2 },
       [Request.set_buffer_scale st.scale_factor,
        Request.attach b 0 0,
        if 4 ≤ st.surface_version then Request.damage_buffer 0 0 (toI32 w) (toI32 h)
        else Request.damage 0 0 (toI32 w) (toI32 h),
        Request.commit,
        Request.set_cursor st.last_serial true (toI32 hx) (toI32 hy)]) := by
  simp only [PointerInner.lookup] at hc
  simp only [PointerInner.update_cursor, PointerInner.lookup, hc, hb, hi]

theorem update_cursor_ok_no_info (env : ThemeEnv) (st : PointerInner) (c : Cursor) (b : Nat)
    (hc : (st.lookup env).1 = some c) (hb : c.frame_buffer 0 = some b)
    (hi : c.frame_info 0 = none) :
    st.update_cursor env =
      (.ok (), { st with themes := (st.lookup env).2 },
       [Request.set_buffer_scale st.scale_factor,
        Request.attach b 0 0,
        if 4 ≤ st.surface_version then Request.damage_buffer 0 0 0 0
        else Request.damage 0 0 0 0,
        Request.commit,
        Request.set_cursor st.last_serial true 0 0]) := by
  simp only [PointerInner.lookup] at hc
  simp only [PointerInner.update_cursor, PointerInner.lookup, hc, hb, hi]

/-- Whatever branch is taken, `update_cursor` returns the input state with
only the cache replaced by the lookup's cache. -/
theorem update_cursor_state (env : ThemeEnv) (st : PointerInner) :
    (st.update_cursor env).2.1 = { st with themes := (st.lookup env).2 } := by
  rcases hc : (st.themes.get_cursor env st.current_cursor (toU32 st.scale_factor)).1 with _ | c
  · simp only [PointerInner.update_cursor, PointerInner.lookup, hc]
  · rcases hb : c.frame_buffer 0 with _ | b
    · simp only [PointerInner.update_cursor, PointerInner.lookup, hc, hb]
    · rcases hi : c.frame_info 0 with _ | ⟨w, h, hx, hy, d⟩ <;>
        simp only [PointerInner.update_cursor, PointerInner.lookup, hc, hb, hi]

/-- `set_cursor` is `update_cursor` on the state with the name stored and
the serial stored when supplied. -/
theorem set_cursor_eq (env : ThemeEnv) (st : PointerInner) (name : String)
    (serial : Option Nat) :
    ThemedPointer.set_cursor env st name serial =
      PointerInner.update_cursor env
        { st with current_cursor := name, last_serial := serial.getD st.last_serial } := by
  cases serial <;> rfl

/-- Running `update_cursor` from a state whose cache is already the
result of its own lookup changes nothing: the cached theme answers the
repeated lookup identically. -/
theorem update_cursor_stable (env : ThemeEnv) (st : PointerInner) :
    PointerInner.update_cursor env { st with themes := (st.lookup env).2 } =
      st.update_cursor env := by
  have hidem := get_cursor_idem env st.themes st.current_cursor (toU32 st.scale_factor)
  simp only [PointerInner.update_cursor, PointerInner.lookup]
  rw [hidem]

/-- Repeating `set_cursor` with the same arguments reproduces the same
result, the same state, and the same protocol request trace. -/
theorem set_cursor_repeat (env : ThemeEnv) (st : PointerInner) (name : String)
    (serial : Option Nat) :
    ThemedPointer.set_cursor env (ThemedPointer.set_cursor env st name serial).2.1
        name serial =
      ThemedPointer.set_cursor env st name serial := by
  cases serial with
  | none =>
      rw [set_cursor_eq, set_cursor_eq, update_cursor_state]
      exact update_cursor_stable env { st with current_cursor := name }
  | some s =>
      rw [set_cursor_eq, set_cursor_eq, update_cursor_state]
      exact update_cursor_stable env
        { st with current_cursor := name, last_serial := s }

/-! ### Lemmas on call sequences against one cache -/

theorem runCalls_nodup (env : ThemeEnv) :
    ∀ (calls : List (String × Nat)) (stl : ScaledThemeList),
      (stl.themes.map Prod.fst).Nodup →
      ((runCalls env calls stl).themes.map Prod.fst).Nodup := by
  intro calls
  induction calls with
  | nil => intro stl h; exact h
  | cons c rest ih =>
      intro stl h
      obtain ⟨n, s⟩ := c
      simp only [runCalls]
      apply ih
      rcases get_cursor_spec env stl n s with ⟨_, heq⟩ | ⟨habs, heq⟩
      · rw [heq]; exact h
      · rw [heq]
        simp only [List.map_append, List.map_cons, List.map_nil]
        rw [List.nodup_append]
        refine ⟨h, List.nodup_singleton s, ?_⟩
        intro a ha hb
        rw [List.mem_singleton] at hb
        exact habs (hb ▸ ha)

theorem runCalls_extends (env : ThemeEnv) :
    ∀ (calls : List (String × Nat)) (stl : ScaledThemeList),
      stl.themes <+: (runCalls env calls stl).themes := by
  intro calls
  induction calls with
  | nil => intro stl; exact List.prefix_refl _
  | cons c rest ih =>
      intro stl
      obtain ⟨n, s⟩ := c
      simp only [runCalls]
      exact (get_cursor_extends env stl n s).trans (ih _)

theorem runCalls_append (env : ThemeEnv) :
    ∀ (c1 c2 : List (String × Nat)) (stl : ScaledThemeList),
      runCalls env (c1 ++ c2) stl = runCalls env c2 (runCalls env c1 stl) := by
  intro c1
  induction c1 with
  | nil => intro c2 stl; rfl
  | cons c rest ih =>
      intro c2 stl
      obtain ⟨n, s⟩ := c
      simp only [List.cons_append, runCalls]
      exact ih c2 _

/-- Over any call sequence, a theme load for scale `s` happens exactly
once if `s` is requested and not yet cached, and never otherwise. -/
theorem loadsOf_count (env : ThemeEnv) :
    ∀ (calls : List (String × Nat)) (stl : ScaledThemeList) (s : Nat),
      (loadsOf env calls stl).count s =
        if s ∈ calls.map Prod.snd ∧ s ∉ stl.themes.map Prod.fst then 1 else 0 := by
  intro calls
  induction calls with
  | nil => intro stl s; simp [loadsOf]
  | cons c rest ih =>
      intro stl s
      obtain ⟨n, s1⟩ := c
      by_cases hmem : s1 ∈ stl.themes.map Prod.fst
      · have hlen := (get_cursor_length env stl n s1).mpr hmem
        have hsame : (stl.get_cursor env n s1).2.themes.map Prod.fst =
            stl.themes.map Prod.fst := by
          rcases get_cursor_spec env stl n s1 with ⟨_, heq⟩ | ⟨habs, _⟩
          · rw [heq]
          · exact absurd hmem habs
        simp only [loadsOf, if_pos hlen, List.nil_append, ih, hsame,
          List.map_cons, List.mem_cons]
        by_cases hs : s = s1
        · subst hs
          split_ifs <;> first | rfl | omega | tauto
        · split_ifs <;> first | rfl | omega | tauto
      · have hlen : ¬ (stl.get_cursor env n s1).2.themes.length = stl.themes.length := by
          intro hc
          exact hmem ((get_cursor_length env stl n s1).mp hc)
        have hkeys : (stl.get_cursor env n s1).2.themes.map Prod.fst =
            stl.themes.map Prod.fst ++ [s1] := by
          rcases get_cursor_spec env stl n s1 with ⟨hin, _⟩ | ⟨_, heq⟩
          · exact absurd hin hmem
          · rw [heq]; simp
        simp only [loadsOf, if_neg hlen, List.singleton_append, List.count_cons, ih, hkeys,
          List.map_cons, List.mem_cons, List.mem_append, List.mem_singleton,
          List.not_mem_nil, or_false, beq_iff_eq]
        by_cases hs : s = s1
        · subst hs
          split_ifs <;> first | rfl | omega | tauto
        · split_ifs <;> first | rfl | omega | tauto

/-! ### Lemmas on the handle lifecycle and the absence of pointer release -/

/-- Every request issued by the lifecycle machinery is a surface
`destroy`. -/
theorem rcRequests_all_destroy (inner : PointerInner) :
    ∀ (events : List RcEvent) (n : Nat), ∀ r ∈ rcRequests inner n events,
      r = Request.destroy := by
  intro events
  induction events with
  | nil => intro n r hr; simp [rcRequests] at hr
  | cons e rest ih =>
      intro n r hr
      cases e with
      | clone => exact ih _ r hr
      | drop =>
          simp only [rcRequests, List.mem_append] at hr
          rcases hr with h | h
          · by_cases hn : n = 1
            · rw [if_pos hn] at h
              simpa [PointerInner.dropRequests] using h
            · rw [if_neg hn] at h
              simp at h
          · exact ih _ r h

/-- Starting from at least one live handle, a valid lifecycle sequence
issues `destroy` exactly once if it ends with zero handles, and never
otherwise. -/
theorem rcRequests_destroy_count (inner : PointerInner) :
    ∀ (events : List RcEvent) (n : Nat), 1 ≤ n → validEvents n events = true →
      (rcRequests inner n events).count Request.destroy =
        if finalCount n events = 0 then 1 else 0 := by
  intro events
  induction events with
  | nil =>
      intro n h1 _
      simp only [rcRequests, finalCount, List.count_nil]
      rw [if_neg (by omega)]
  | cons e rest ih =>
      intro n h1 hv
      cases e with
      | clone =>
          simp only [validEvents, Bool.and_eq_true] at hv
          simp only [rcRequests, finalCount]
          exact ih (n + 1) (by omega) hv.2
      | drop =>
          simp only [validEvents, Bool.and_eq_true] at hv
          by_cases hn : n = 1
          · subst hn
            have hrest : rest = [] := by
              cases rest with
              | nil => rfl
              | cons e2 r2 => cases e2 <;> simp [validEvents] at hv
            subst hrest
            simp [rcRequests, finalCount, PointerInner.dropRequests]
          · simp only [rcRequests, finalCount, if_neg hn, List.nil_append]
            exact ih (n - 1) (by omega) hv.2

/-- `update_cursor` never issues a request on the wrapped pointer other
than `set_cursor`; in particular it never releases it. -/
theorem update_cursor_no_release (env : ThemeEnv) (st : PointerInner) :
    Request.release_pointer ∉ (st.update_cursor env).2.2 := by
  rcases hc : (st.lookup env).1 with _ | c
  · rw [update_cursor_none env st hc]; simp
  · rcases hb : c.frame_buffer 0 with _ | b
    · rw [update_cursor_no_buffer env st c hc hb]; simp
    · rcases hi : c.frame_info 0 with _ | ⟨w, h, hx, hy, d⟩
      · rw [update_cursor_ok_no_info env st c b hc hb hi]
        split_ifs <;> simp
      · rw [update_cursor_ok env st c b w h hx hy d hc hb hi]
        split_ifs <;> simp

/-- `set_cursor` never destroys or releases the wrapped pointer. -/
theorem set_cursor_no_release (env : ThemeEnv) (st : PointerInner)
    (name : String) (serial : Option Nat) :
    Request.release_pointer ∉ (ThemedPointer.set_cursor env st name serial).2.2 := by
  rw [set_cursor_eq]
  exact update_cursor_no_release env _

/-! ### Additional concrete states for witnesses -/

/-- A pointer state over an empty cache whose current cursor name is
unknown to every theme `envA` loads. -/
def pstMissing : PointerInner := { pstA with current_cursor := "missing" }

/-- A fresh pointer state bound to a surface of negotiated version 2
(below the buffer-local-damage version 4). -/
def pstOld : PointerInner := { pstA with surface_version := 2 }

/-! ### Claim theorems -/

/-- C1 counterexample: calling `set_cursor` with the unknown name
`"missing"` and serial 5 on a fresh state reports failure, yet
`current_cursor` and `last_serial` are both changed — the claim that all
pointer state is left unmodified is false. -/
theorem c1_counterexample :
    (ThemedPointer.set_cursor envA pstA "missing" (some 5)).1 = .error () ∧
    (ThemedPointer.set_cursor envA pstA "missing" (some 5)).2.1.current_cursor ≠
      pstA.current_cursor ∧
    (ThemedPointer.set_cursor envA pstA "missing" (some 5)).2.1.last_serial ≠
      pstA.last_serial :=
  ⟨rfl, by decide, by decide⟩

/-- C1 (amended): `set_cursor` with a name unknown to the theme at the
current scale reports failure and issues no protocol request (so the
surface's committed buffer is unchanged), but it stores the requested
name in `current_cursor` and the supplied serial in `last_serial`; the
theme cache is whatever the failed lookup left behind. -/
theorem c1_set_cursor_unknown_name (env : ThemeEnv) (st : PointerInner)
    (name : String) (serial : Option Nat)
    (h : (st.themes.get_cursor env name (toU32 st.scale_factor)).1 = none) :
    ThemedPointer.set_cursor env st name serial =
      (.error (),
       { st with current_cursor := name,
                 last_serial := serial.getD st.last_serial,
                 themes := (st.themes.get_cursor env name (toU32 st.scale_factor)).2 },
       []) := by
  rw [set_cursor_eq]
  exact update_cursor_none env _ h

/-- C1 witness: the amended statement at a concrete unknown name. -/
theorem c1_set_cursor_unknown_name_witness :
    (pstA.themes.get_cursor envA "missing" (toU32 pstA.scale_factor)).1 = none ∧
    ThemedPointer.set_cursor envA pstA "missing" (some 5) =
      (.error (),
       { pstA with current_cursor := "missing",
                   last_serial := (some 5).getD pstA.last_serial,
                   themes := (pstA.themes.get_cursor envA "missing"
                     (toU32 pstA.scale_factor)).2 },
       []) :=
  ⟨rfl, c1_set_cursor_unknown_name envA pstA "missing" (some 5) rfl⟩

/-- C2 counterexample: with a theme whose cursor has a frame-0 buffer but
no frame-0 geometry, `update_cursor` does not return the unit error — it
succeeds and issues protocol requests, so missing geometry is not handled
like cursor-not-found. -/
theorem c2_counterexample :
    (pstA.update_cursor envNoInfo).1 = .ok () ∧
    (pstA.update_cursor envNoInfo).2.2 ≠ [] :=
  ⟨rfl, by decide⟩

/-- C2 (amended): only a missing frame-0 buffer makes `update_cursor`
fail like cursor-not-found (unit error, no protocol requests, pointer
fields unchanged, cache as the lookup left it); when the buffer exists
but the frame-0 geometry is missing, the update succeeds and issues the
full request sequence with width, height and hotspot all zero. -/
theorem c2_frame_unavailable (env : ThemeEnv) (st : PointerInner) (c : Cursor)
    (hc : (st.lookup env).1 = some c) :
    (c.frame_buffer 0 = none →
      st.update_cursor env = (.error (), { st with themes := (st.lookup env).2 }, [])) ∧
    (∀ b, c.frame_buffer 0 = some b → c.frame_info 0 = none →
      st.update_cursor env =
        (.ok (), { st with themes := (st.lookup env).2 },
         [Request.set_buffer_scale st.scale_factor,
          Request.attach b 0 0,
          if 4 ≤ st.surface_version then Request.damage_buffer 0 0 0 0
          else Request.damage 0 0 0 0,
          Request.commit,
          Request.set_cursor st.last_serial true 0 0])) :=
  ⟨fun hb => update_cursor_no_buffer env st c hc hb,
   fun b hb hi => update_cursor_ok_no_info env st c b hc hb hi⟩

/-- C2 witness: both amended branches at concrete inputs — a cursor with
no frame-0 buffer fails without requests; a cursor with a buffer but no
geometry succeeds with zeroed damage and hotspot. -/
theorem c2_frame_unavailable_witness :
    ((pstA.lookup envNoBuf).1 = some cursorNoBuf ∧
     pstA.update_cursor envNoBuf =
       (.error (), { pstA with themes := (pstA.lookup envNoBuf).2 }, [])) ∧
    ((pstA.lookup envNoInfo).1 = some cursorNoInfo ∧
     pstA.update_cursor envNoInfo =
       (.ok (), { pstA with themes := (pstA.lookup envNoInfo).2 },
        [Request.set_buffer_scale pstA.scale_factor,
         Request.attach 7 0 0,
         if 4 ≤ pstA.surface_version then Request.damage_buffer 0 0 0 0
         else Request.damage 0 0 0 0,
         Request.commit,
         Request.set_cursor pstA.last_serial true 0 0])) :=
  ⟨⟨rfl, (c2_frame_unavailable envNoBuf pstA cursorNoBuf rfl).1 rfl⟩,
   ⟨rfl, (c2_frame_unavailable envNoInfo pstA cursorNoInfo rfl).2 7 rfl rfl⟩⟩

/-- C3: a successful update issues exactly, and in this order: the
buffer-scale request with the current scale factor, the attach of the
resolved buffer at (0,0), `damage_buffer(0,0,w,h)` when the surface's
negotiated version is at least 4 and `damage(0,0,w,h)` otherwise (w, h
from the resolved frame's geometry in both cases), the commit, and the
pointer `set_cursor` request with `last_serial` and the frame's hotspot. -/
theorem c3_update_request_order (env : ThemeEnv) (st : PointerInner) (c : Cursor)
    (b w h hx hy d : Nat)
    (hc : (st.lookup env).1 = some c) (hb : c.frame_buffer 0 = some b)
    (hi : c.frame_info 0 = some (w, h, hx, hy, d)) :
    st.update_cursor env =
      (.ok (), { st with themes := (st.lookup env).2 },
       [Request.set_buffer_scale st.scale_factor,
        Request.attach b 0 0,
        if 4 ≤ st.surface_version then Request.damage_buffer 0 0 (toI32 w) (toI32 h)
        else Request.damage 0 0 (toI32 w) (toI32 h),
        Request.commit,
        Request.set_cursor st.last_serial true (toI32 hx) (toI32 hy)]) :=
  update_cursor_ok env st c b w h hx hy d hc hb hi

/-- C3 witness: the request order at concrete inputs, on a version-4
surface (buffer-local damage) and on a version-2 surface (surface-local
damage). -/
theorem c3_update_request_order_witness :
    ((pstA.lookup envA).1 = some cursorA ∧
     cursorA.frame_buffer 0 = some 7 ∧
     cursorA.frame_info 0 = some (24, 24, 3, 4, 100) ∧
     pstA.update_cursor envA =
       (.ok (), { pstA with themes := (pstA.lookup envA).2 },
        [Request.set_buffer_scale pstA.scale_factor,
         Request.attach 7 0 0,
         if 4 ≤ pstA.surface_version then Request.damage_buffer 0 0 (toI32 24) (toI32 24)
         else Request.damage 0 0 (toI32 24) (toI32 24),
         Request.commit,
         Request.set_cursor pstA.last_serial true (toI32 3) (toI32 4)])) ∧
    pstOld.update_cursor envA =
      (.ok (), { pstOld with themes := (pstOld.lookup envA).2 },
       [Request.set_buffer_scale pstOld.scale_factor,
        Request.attach 7 0 0,
        if 4 ≤ pstOld.surface_version then Request.damage_buffer 0 0 (toI32 24) (toI32 24)
        else Request.damage 0 0 (toI32 24) (toI32 24),
        Request.commit,
        Request.set_cursor pstOld.last_serial true (toI32 3) (toI32 4)]) :=
  ⟨⟨rfl, rfl, rfl,
    c3_update_request_order envA pstA cursorA 7 24 24 3 4 100 rfl rfl rfl⟩,
   c3_update_request_order envA pstOld cursorA 7 24 24 3 4 100 rfl rfl rfl⟩

/-- C4: against one cache, starting empty, any call sequence loads a
theme exactly once per distinct requested scale (and never for a scale
not requested), the cache keeps at most one entry per scale, and the
entries present after any prefix of the calls persist unevicted and
unreplaced, in place, through any continuation. -/
theorem c4_theme_cache_once_per_scale (env : ThemeEnv) (nm : Option String) (shm : Nat)
    (calls extra : List (String × Nat)) (s : Nat) :
    ((runCalls env calls (ScaledThemeList.new nm shm)).themes.map Prod.fst).Nodup ∧
    (loadsOf env calls (ScaledThemeList.new nm shm)).count s =
      (if s ∈ calls.map Prod.snd then 1 else 0) ∧
    (runCalls env calls (ScaledThemeList.new nm shm)).themes <+:
      (runCalls env (calls ++ extra) (ScaledThemeList.new nm shm)).themes := by
  refine ⟨runCalls_nodup env calls _ (by simp [ScaledThemeList.new]), ?_, ?_⟩
  · rw [loadsOf_count]
    by_cases hmem : s ∈ calls.map Prod.snd
    · rw [if_pos ⟨hmem, List.not_mem_nil s⟩, if_pos hmem]
    · rw [if_neg (fun hc => hmem hc.1), if_neg hmem]
  · rw [runCalls_append]
    exact runCalls_extends env extra _

/-- C5 counterexample: an unsuccessful resolution (unknown name at a
previously-unseen scale) fails, but the theme cache has changed — it
gained the freshly loaded theme — so the update is not free of observable
state change. -/
theorem c5_counterexample :
    (pstMissing.update_cursor envA).1 = .error () ∧
    (pstMissing.update_cursor envA).2.1.themes.themes.length ≠
      pstMissing.themes.themes.length :=
  ⟨rfl, by decide⟩

/-- C5 (amended): when the cache lookup does not resolve the cursor,
`update_cursor` fails with the unit error, issues no surface or pointer
protocol request, and changes no pointer-state field; the theme cache is
either unchanged or gains exactly one entry for the previously-unseen
current scale. -/
theorem c5_unresolved_fails_without_requests (env : ThemeEnv) (st : PointerInner)
    (h : (st.lookup env).1 = none) :
    st.update_cursor env = (.error (), { st with themes := (st.lookup env).2 }, []) ∧
    ((st.lookup env).2.themes = st.themes.themes ∨
     (toU32 st.scale_factor ∉ st.themes.themes.map Prod.fst ∧
      (st.lookup env).2.themes = st.themes.themes ++
        [(toU32 st.scale_factor,
          env.load_theme st.themes.name
            ((16 * toU32 st.scale_factor) % 4294967296) st.themes.shm)])) := by
  refine ⟨update_cursor_none env st h, ?_⟩
  rcases get_cursor_spec env st.themes st.current_cursor (toU32 st.scale_factor) with
    ⟨_, heq⟩ | ⟨habs, heq⟩
  · left
    simp only [PointerInner.lookup, heq]
  · right
    exact ⟨habs, by simp only [PointerInner.lookup, heq]⟩

/-- C5 witness: the amended statement at a concrete unresolvable state. -/
theorem c5_unresolved_fails_without_requests_witness :
    (pstMissing.lookup envA).1 = none ∧
    (pstMissing.update_cursor envA =
      (.error (), { pstMissing with themes := (pstMissing.lookup envA).2 }, []) ∧
     ((pstMissing.lookup envA).2.themes = pstMissing.themes.themes ∨
      (toU32 pstMissing.scale_factor ∉ pstMissing.themes.themes.map Prod.fst ∧
       (pstMissing.lookup envA).2.themes = pstMissing.themes.themes ++
         [(toU32 pstMissing.scale_factor,
           envA.load_theme pstMissing.themes.name
             ((16 * toU32 pstMissing.scale_factor) % 4294967296)
             pstMissing.themes.shm)]))) :=
  ⟨rfl, c5_unresolved_fails_without_requests envA pstMissing rfl⟩

/-- C6: when `set_cursor(name, serial)` succeeds, repeating it at once
with the same arguments succeeds again and emits the identical protocol
request sequence (the theme is deterministic and the cached theme answers
the repeated lookup identically). -/
theorem c6_set_cursor_idempotent (env : ThemeEnv) (st : PointerInner)
    (name : String) (serial : Option Nat)
    (hres : (ThemedPointer.set_cursor env st name serial).1 = .ok ()) :
    (ThemedPointer.set_cursor env (ThemedPointer.set_cursor env st name serial).2.1
        name serial).2.2 =
      (ThemedPointer.set_cursor env st name serial).2.2 ∧
    (ThemedPointer.set_cursor env (ThemedPointer.set_cursor env st name serial).2.1
        name serial).1 = .ok () := by
  constructor
  · rw [set_cursor_repeat]
  · rw [set_cursor_repeat]
    exact hres

/-- C6 witness: idempotence at a concrete resolvable pair. -/
theorem c6_set_cursor_idempotent_witness :
    (ThemedPointer.set_cursor envA pstA "left_ptr" (some 3)).1 = .ok () ∧
    ((ThemedPointer.set_cursor envA
        (ThemedPointer.set_cursor envA pstA "left_ptr" (some 3)).2.1
        "left_ptr" (some 3)).2.2 =
      (ThemedPointer.set_cursor envA pstA "left_ptr" (some 3)).2.2 ∧
     (ThemedPointer.set_cursor envA
        (ThemedPointer.set_cursor envA pstA "left_ptr" (some 3)).2.1
        "left_ptr" (some 3)).1 = .ok ()) :=
  ⟨rfl, c6_set_cursor_idempotent envA pstA "left_ptr" (some 3) rfl⟩

/-- C7: `theme_pointer` yields a state whose cursor name is `"left_ptr"`,
whose scale factor is 1 and serial 0, sharing the manager's cache
untouched, and issues no cursor-theming protocol request. -/
theorem c7_theme_pointer_initial_state (themes : ScaledThemeList) (v : Nat) :
    (ThemeManager.theme_pointer themes v).1.current_cursor = "left_ptr" ∧
    (ThemeManager.theme_pointer themes v).1.scale_factor = 1 ∧
    (ThemeManager.theme_pointer themes v).1.last_serial = 0 ∧
    (ThemeManager.theme_pointer themes v).1.themes = themes ∧
    (ThemeManager.theme_pointer themes v).2 = [] :=
  ⟨rfl, rfl, rfl, rfl, rfl⟩

/-- C8: over any valid handle lifecycle that starts with the one handle
`theme_pointer` returned and ends with no live handle, exactly one
surface `destroy` is issued and no pointer release ever is — neither by
the lifecycle machinery nor by `set_cursor`. -/
theorem c8_last_drop_destroys_surface_once (inner : PointerInner)
    (events : List RcEvent) (env : ThemeEnv) (st : PointerInner)
    (name : String) (serial : Option Nat)
    (hv : validEvents 1 events = true) (hf : finalCount 1 events = 0) :
    (rcRequests inner 1 events).count Request.destroy = 1 ∧
    (rcRequests inner 1 events).count Request.release_pointer = 0 ∧
    Request.release_pointer ∉ (ThemedPointer.set_cursor env st name serial).2.2 := by
  refine ⟨?_, ?_, set_cursor_no_release env st name serial⟩
  · rw [rcRequests_destroy_count inner events 1 (le_refl 1) hv, if_pos hf]
  · rw [List.count_eq_zero]
    intro hmem
    exact absurd (rcRequests_all_destroy inner events 1 _ hmem) (by decide)

/-- C8 witness: a clone followed by two drops destroys the surface once
and never releases the pointer. -/
theorem c8_last_drop_destroys_surface_once_witness :
    validEvents 1 [RcEvent.clone, RcEvent.drop, RcEvent.drop] = true ∧
    finalCount 1 [RcEvent.clone, RcEvent.drop, RcEvent.drop] = 0 ∧
    ((rcRequests pstA 1 [RcEvent.clone, RcEvent.drop, RcEvent.drop]).count
        Request.destroy = 1 ∧
     (rcRequests pstA 1 [RcEvent.clone, RcEvent.drop, RcEvent.drop]).count
        Request.release_pointer = 0 ∧
     Request.release_pointer ∉
       (ThemedPointer.set_cursor envA pstA "left_ptr" none).2.2) :=
  ⟨by decide, by decide,
   c8_last_drop_destroys_surface_once pstA
     [RcEvent.clone, RcEvent.drop, RcEvent.drop] envA pstA "left_ptr" none
     (by decide) (by decide)⟩

/-- C9: `update_cursor` leaves every pointer-state field (surface,
cursor name, serial, scale factor) unchanged whether it succeeds or
fails; the only mutation is to the shared theme cache, which is either
unchanged or gains one entry for the previously-unseen current scale. -/
theorem c9_update_cursor_frame (env : ThemeEnv) (st : PointerInner) :
    (st.update_cursor env).2.1.surface_version = st.surface_version ∧
    (st.update_cursor env).2.1.current_cursor = st.current_cursor ∧
    (st.update_cursor env).2.1.last_serial = st.last_serial ∧
    (st.update_cursor env).2.1.scale_factor = st.scale_factor ∧
    ((st.update_cursor env).2.1.themes.themes = st.themes.themes ∨
     (toU32 st.scale_factor ∉ st.themes.themes.map Prod.fst ∧
      ∃ t, (st.update_cursor env).2.1.themes.themes =
        st.themes.themes ++ [(toU32 st.scale_factor, t)])) := by
  rw [update_cursor_state]
  refine ⟨rfl, rfl, rfl, rfl, ?_⟩
  rcases get_cursor_spec env st.themes st.current_cursor (toU32 st.scale_factor) with
    ⟨_, heq⟩ | ⟨habs, heq⟩
  · left
    simp only [PointerInner.lookup, heq]
  · right
    exact ⟨habs,
      ⟨env.load_theme st.themes.name ((16 * toU32 st.scale_factor) % 4294967296)
         st.themes.shm,
       by simp only [PointerInner.lookup, heq]⟩⟩

/-- C10: the scale-change listener stores any notified scale factor
unchecked (including non-positive values); the stored `i32` is
reinterpreted as `u32` for the cache lookup, so `-1` is looked up as
scale 4294967295, and the theme for that scale is loaded at pixel size
`16 * scale` computed in wrapping 32-bit arithmetic, i.e. 4294967280. -/
theorem c10_scale_unvalidated_wrapping (env : ThemeEnv) (st : PointerInner)
    (sf : Int) (nm : Option String) (shm : Nat) (name : String) :
    (scale_callback env st sf).1.scale_factor = sf ∧
    toU32 (-1) = 4294967295 ∧
    ((ScaledThemeList.new nm shm).get_cursor env name (toU32 (-1))).2.themes =
      [(4294967295, env.load_theme nm 4294967280 shm)] := by
  refine ⟨?_, rfl, ?_⟩
  · simp only [scale_callback]
    rw [update_cursor_state]
  · rfl
